import Mathlib

/-!
Shallow embedding of the RedTooth daemon core: the device-scanner cache and
adaptive-backoff policy (DeviceScanner), the connection pool over the profile
manager (ConnectionPool / ProfileManager), the scanner start pre-flight check,
and the audio capture fan-out router (AudioManager / WASAPIRenderer).
Each definition mirrors the corresponding C++ function; external OS calls
(BluetoothGetDeviceInfo, BluetoothSetServiceState, CreateThread, radio probe)
are modelled as oracle environments supplied as parameters.
-/

namespace RedTooth

/-- Device record produced by one scan sighting (struct BluetoothDevice). -/
structure BluetoothDevice where
  name : String
  address : Nat
  connected : Bool
  authenticated : Bool
  rssi : Int
  cod : Nat
deriving DecidableEq

/-- Scanner state: the device cache (cached_devices_) plus the sequence of
device-found observer invocations, in order (calls to on_device_found_). -/
structure ScanCache where
  devices : List BluetoothDevice
  events : List BluetoothDevice
deriving DecidableEq

/-- Whether a device list holds an entry with the given address
(the existence loop in DeviceScanner::ScanLoop). -/
def containsAddr (l : List BluetoothDevice) (a : Nat) : Bool :=
  l.any (fun d => d.address == a)

/-- In-place update of the first cache entry matching the sighting's address:
only the name, connected and authenticated fields are overwritten, as in the
update branch of DeviceScanner::ScanLoop. -/
def updateEntry (dev : BluetoothDevice) : List BluetoothDevice → List BluetoothDevice
  | [] => []
  | e :: rest =>
    if e.address == dev.address then
      { e with name := dev.name, connected := dev.connected,
               authenticated := dev.authenticated } :: rest
    else
      e :: updateEntry dev rest

/-- Processing of one reported device inside the scan loop: update in place if
the address is cached, otherwise append it and invoke the observer. -/
def recordDevice (st : ScanCache) (dev : BluetoothDevice) : ScanCache :=
  if containsAddr st.devices dev.address then
    { st with devices := updateEntry dev st.devices }
  else
    { devices := st.devices ++ [dev], events := st.events ++ [dev] }

/-- Processing of the sequence of devices reported by one enumeration pass. -/
def recordDevices (st : ScanCache) (devs : List BluetoothDevice) : ScanCache :=
  devs.foldl recordDevice st

/-- A whole run of the scanner: a sequence of scan cycles starting from the
empty cache (the scanner is constructed with an empty cached_devices_). -/
def scanCyclesRun (cycles : List (List BluetoothDevice)) : ScanCache :=
  cycles.foldl recordDevices { devices := [], events := [] }

/-- Number of cache entries carrying a given address. -/
def countAddr (a : Nat) (l : List BluetoothDevice) : Nat :=
  l.countP (fun d => d.address == a)

/-- Lookup of the first entry with a given address. -/
def findAddr (l : List BluetoothDevice) (a : Nat) : Option BluetoothDevice :=
  l.find? (fun d => d.address == a)

/-- The most recent sighting of an address in a sighting sequence. -/
def lastSighting (l : List BluetoothDevice) (a : Nat) : Option BluetoothDevice :=
  l.reverse.find? (fun d => d.address == a)

/-- One backoff update of the scan loop after a genuine enumeration error past
the threshold: double, clamp at the 10000 ms ceiling, add jitter computed from
a rand() draw, floor at 1000 ms.  Mirrors the error branch of
DeviceScanner::ScanLoop. -/
def backoffUpdate (rand cur : Nat) : Nat :=
  let m := min (cur * 2) 10000
  let jitter : Int := ((rand % (m / 5) : Nat) : Int) - ((m / 10 : Nat) : Int)
  (max 1000 ((m : Int) + jitter)).toNat

/-- Outcome of one enumeration pass: a non-empty device find, the
ERROR_NO_MORE_ITEMS empty result, or a genuine error together with the
rand() draw used for jitter. -/
inductive ScanCycleOutcome where
  | devicesFound (devs : List BluetoothDevice)
  | noMoreItems
  | enumError (rand : Nat)
deriving DecidableEq

/-- Effect of one scan cycle on the (consecutive_errors, current_backoff_ms)
pair, as in DeviceScanner::ScanLoop: a find resets both to baseline, an empty
result leaves them untouched, a genuine error increments the counter and
updates the backoff once the counter passes the threshold of 2. -/
def scanCycleBackoff (o : ScanCycleOutcome) (st : Nat × Nat) : Nat × Nat :=
  match o with
  | .devicesFound _ => (0, 1000)
  | .noMoreItems => st
  | .enumError rand =>
      let errs := st.1 + 1
      if 2 < errs then (errs, backoffUpdate rand st.2)
      else (errs, st.2)

/-- Backoff state reached after a sequence of scan cycles, starting from the
initial consecutive_errors = 0 and current_backoff_ms = 1000. -/
def runScanBackoff (outcomes : List ScanCycleOutcome) : Nat × Nat :=
  outcomes.foldl (fun st o => scanCycleBackoff o st) (0, 1000)

/-- Oracle for DeviceScanner::StartScanning: whether IsValidRadio() passes and
whether CreateThread succeeds. -/
structure RadioEnv where
  radioValid : Bool
  createThreadOk : Bool
deriving DecidableEq

/-- Observable outcome of StartScanning: the returned flag, whether
CreateThread was invoked at all, and the final scanning_ flag. -/
structure StartOutcome where
  ret : Bool
  threadSpawned : Bool
  scanningAfter : Bool
deriving DecidableEq

/-- DeviceScanner::StartScanning: no-op success when already scanning; the
IsValidRadio pre-flight check runs before any thread creation and aborts the
start on failure; otherwise the thread is spawned, and a CreateThread failure
rolls scanning_ back to false. -/
def StartScanning (env : RadioEnv) (scanning : Bool) : StartOutcome :=
  if scanning then { ret := true, threadSpawned := false, scanningAfter := true }
  else if !env.radioValid then { ret := false, threadSpawned := false, scanningAfter := false }
  else if env.createThreadOk then { ret := true, threadSpawned := true, scanningAfter := true }
  else { ret := false, threadSpawned := true, scanningAfter := false }

/-- Oracle for the radio stack as seen by ConnectionPool / ProfileManager:
BluetoothGetDeviceInfo (none models a failed query, some c a successful query
with fConnected = c) and the success of the two BluetoothSetServiceState
calls. -/
structure BtEnv where
  getDeviceInfo : Nat → Option Bool
  setServiceEnable : Nat → Bool
  setServiceDisable : Nat → Bool

/-- ProfileManager::EnableAudioSink: query device info, then enable the A2DP
sink service; false on either failure. -/
def EnableAudioSink (env : BtEnv) (a : Nat) : Bool :=
  match env.getDeviceInfo a with
  | none => false
  | some _ => env.setServiceEnable a

/-- ProfileManager::DisableAudioSink: query device info, then disable the A2DP
sink service; false on either failure. -/
def DisableAudioSink (env : BtEnv) (a : Nat) : Bool :=
  match env.getDeviceInfo a with
  | none => false
  | some _ => env.setServiceDisable a

/-- Key insertion into the active_connections_ map (operator[] assignment:
the key set gains the address if absent). -/
def insertKey (a : Nat) (l : List Nat) : List Nat :=
  if a ∈ l then l else l ++ [a]

/-- Key removal from the active_connections_ map (map::erase). -/
def eraseKey (a : Nat) (l : List Nat) : List Nat :=
  l.filter (fun b => !(b == a))

/-- ConnectionPool::IsConnected as a state transformer: the result flag, the
map after the call, and the number of external BluetoothGetDeviceInfo queries
made.  Absent from the local map: false with no external query; present:
return the authoritative external flag (false when the query itself fails). -/
def IsConnected (env : BtEnv) (pool : List Nat) (a : Nat) : Bool × List Nat × Nat :=
  if a ∈ pool then
    match env.getDeviceInfo a with
    | some c => (c, pool, 1)
    | none => (false, pool, 1)
  else
    (false, pool, 0)

/-- ConnectionPool::ConnectDevice: the result flag, the map after the call,
and the number of ProfileManager::EnableAudioSink calls made. -/
def ConnectDevice (env : BtEnv) (pool : List Nat) (a : Nat) : Bool × List Nat × Nat :=
  if (IsConnected env pool a).1 then (true, pool, 0)
  else if EnableAudioSink env a then (true, insertKey a pool, 1)
  else (false, pool, 1)

/-- ConnectionPool::DisconnectDevice: the result flag and the map after the
call; the local entry is erased exactly when the external disable succeeds. -/
def DisconnectDevice (env : BtEnv) (pool : List Nat) (a : Nat) : Bool × List Nat :=
  if DisableAudioSink env a then (true, eraseKey a pool)
  else (false, pool)

/-- Renderer state (WASAPIRenderer): its endpoint id, whether render_client_
is non-null (set only by Initialize), whether GetBuffer succeeds for it, and
the frame counts of the packets actually copied into it. -/
structure WASAPIRenderer where
  deviceId : String
  renderClient : Bool
  bufferAvail : Bool
  fedFrames : List Nat
deriving DecidableEq

/-- The WASAPIRenderer constructor: render_client_ starts out null; no audio
client exists yet, so no buffer is available either. -/
def WASAPIRenderer.construct (id : String) : WASAPIRenderer :=
  { deviceId := id, renderClient := false, bufferAvail := false, fedFrames := [] }

/-- WASAPIRenderer::FeedData: bail out when render_client_ is null; otherwise
copy the packet when GetBuffer succeeds, silently drop it when it fails. -/
def FeedData (frames : Nat) (r : WASAPIRenderer) : WASAPIRenderer :=
  if !r.renderClient then r
  else if r.bufferAvail then { r with fedFrames := r.fedFrames ++ [frames] }
  else r

/-- The sink registry of AudioManager (renderers_). -/
structure AudioManager where
  renderers : List (Nat × WASAPIRenderer)
deriving DecidableEq

/-- AudioManager::FindEndpointId as written in the source: a mock that returns
the placeholder endpoint id for every address. -/
def findEndpointId (_address : Nat) : String :=
  "\x7b0.0.0.00000000\x7d.\x7b...\x7d"

/-- AudioManager::AddOutputDevice, parameterized by the endpoint resolution
function: an empty resolution result aborts with no entry; otherwise a
renderer is constructed (note: never initialized -- the Initialize call is
commented out in the source) and inserted unless the address is present. -/
def AddOutputDevice (resolve : Nat → String) (m : AudioManager) (address : Nat) : AudioManager :=
  if resolve address = "" then m
  else if m.renderers.any (fun p => p.1 == address) then m
  else { renderers := m.renderers ++ [(address, WASAPIRenderer.construct (resolve address))] }

/-- AudioManager::RemoveOutputDevice: erase the registry entry if present. -/
def RemoveOutputDevice (m : AudioManager) (address : Nat) : AudioManager :=
  { renderers := m.renderers.filter (fun p => !(p.1 == address)) }

/-- AudioManager::OnAudioCaptured: feed the captured packet to every renderer
currently in the registry, in order. -/
def OnAudioCaptured (frames : Nat) (m : AudioManager) : AudioManager :=
  { renderers := m.renderers.map (fun p => (p.1, FeedData frames p.2)) }

/-! ### Concrete instances used by the witnesses -/

/-- A first sighting of the headset, unpaired. -/
def devA1 : BluetoothDevice :=
  { name := "Headset", address := 161, connected := false, authenticated := false,
    rssi := 0, cod := 0 }

/-- A second sighting of the same headset, now paired. -/
def devA1Paired : BluetoothDevice := { devA1 with authenticated := true }

/-- A sighting of a second, distinct device. -/
def devB2 : BluetoothDevice :=
  { name := "Speaker", address := 178, connected := true, authenticated := true,
    rssi := 0, cod := 0 }

/-- Scan run used by the cache witness: the headset twice, then the speaker. -/
def cyclesW : List (List BluetoothDevice) := [[devA1], [devA1Paired, devB2]]

/-- Radio environment where every external call succeeds and the device is
externally connected. -/
def envUp : BtEnv :=
  { getDeviceInfo := fun _ => some true,
    setServiceEnable := fun _ => true,
    setServiceDisable := fun _ => true }

/-- Radio environment where device queries succeed but both service-state
calls fail. -/
def envRefuse : BtEnv :=
  { getDeviceInfo := fun _ => some true,
    setServiceEnable := fun _ => false,
    setServiceDisable := fun _ => false }

/-- Radio environment where the device answers queries but reports itself
disconnected (an externally dropped link). -/
def envDropped : BtEnv :=
  { getDeviceInfo := fun _ => some false,
    setServiceEnable := fun _ => true,
    setServiceDisable := fun _ => true }

/-- Endpoint ids for the audio witnesses. -/
def endpointA : String := "endpoint-a"

/-- Second endpoint id. -/
def endpointB : String := "endpoint-b"

/-- Third endpoint id. -/
def endpointC : String := "endpoint-c"

/-- A fully initialized renderer able to accept frames. -/
def okSink (id : String) : WASAPIRenderer :=
  { deviceId := id, renderClient := true, bufferAvail := true, fedFrames := [] }

/-- An initialized renderer whose GetBuffer fails (buffer full). -/
def fullSink (id : String) : WASAPIRenderer :=
  { deviceId := id, renderClient := true, bufferAvail := false, fedFrames := [] }

/-- Registry with two working sinks and one failing sink. -/
def mgrThree : AudioManager :=
  { renderers := [(1, okSink endpointA), (2, okSink endpointB), (3, fullSink endpointC)] }

/-! ### ConnectionPool theorems -/

/-- Claim C2: calling connect twice in immediate succession on an address not
in the local map, when the first external enable call succeeds and the device
remains externally connected, makes exactly one external profile-enable call
in total and both calls report success. -/
theorem connect_twice_one_enable (env : BtEnv) (pool : List Nat) (a : Nat)
    (h0 : a ∉ pool) (h1 : EnableAudioSink env a = true)
    (h2 : env.getDeviceInfo a = some true) :
    (ConnectDevice env pool a).1 = true ∧
    (ConnectDevice env (ConnectDevice env pool a).2.1 a).1 = true ∧
    (ConnectDevice env pool a).2.2 + (ConnectDevice env (ConnectDevice env pool a).2.1 a).2.2 = 1 := by
  have hic : IsConnected env pool a = (false, pool, 0) := by
    simp [IsConnected, h0]
  have hc1 : ConnectDevice env pool a = (true, insertKey a pool, 1) := by
    simp [ConnectDevice, hic, h1]
  have hmem : a ∈ insertKey a pool := by
    simp [insertKey, h0]
  have hic2 : (IsConnected env (insertKey a pool) a).1 = true := by
    simp [IsConnected, hmem, h2]
  have hc2 : ConnectDevice env (insertKey a pool) a = (true, insertKey a pool, 0) := by
    simp [ConnectDevice, hic2]
  rw [hc1]
  simp [hc2]

/-- Witness for C2 at a concrete environment, address and empty pool. -/
theorem connect_twice_one_enable_witness :
    (ConnectDevice envUp [] 5).1 = true ∧
    (ConnectDevice envUp (ConnectDevice envUp [] 5).2.1 5).1 = true ∧
    (ConnectDevice envUp [] 5).2.2 + (ConnectDevice envUp (ConnectDevice envUp [] 5).2.1 5).2.2 = 1 :=
  connect_twice_one_enable envUp [] 5 (by simp) rfl rfl

/-- Claim C3: isConnected returns false with no external query for an address
absent from the local map, and for an address present in the map it returns
the authoritative external connected flag obtained from exactly one external
query. -/
theorem isConnected_two_stage (env : BtEnv) (pool : List Nat) (a : Nat) :
    (a ∉ pool → IsConnected env pool a = (false, pool, 0)) ∧
    (a ∈ pool → ∀ c, env.getDeviceInfo a = some c →
       (IsConnected env pool a).1 = c ∧ (IsConnected env pool a).2.2 = 1) := by
  constructor
  · intro h
    simp [IsConnected, h]
  · intro h c hc
    simp [IsConnected, h, hc]

/-- Witness for C3: a never-connected address answers false with no query;
an address in the map whose link was dropped externally answers false. -/
theorem isConnected_two_stage_witness :
    IsConnected envUp [] 5 = (false, [], 0) ∧ (IsConnected envDropped [7] 7).1 = false :=
  ⟨(isConnected_two_stage envUp [] 5).1 (by simp),
   ((isConnected_two_stage envDropped [7] 7).2 (by simp) false rfl).1⟩

/-- Claim C8: a failed connect leaves the local map exactly as it was and
reports failure; a failed disconnect leaves the local map untouched and
reports failure; a successful disconnect removes the local entry if present,
regardless of prior local state. -/
theorem pool_failure_atomicity (env : BtEnv) (pool : List Nat) (a : Nat) :
    (EnableAudioSink env a = false → (IsConnected env pool a).1 = false →
       ConnectDevice env pool a = (false, pool, 1)) ∧
    (DisableAudioSink env a = false → DisconnectDevice env pool a = (false, pool)) ∧
    (DisableAudioSink env a = true → DisconnectDevice env pool a = (true, eraseKey a pool)) := by
  refine ⟨?_, ?_, ?_⟩
  · intro he hic
    simp [ConnectDevice, hic, he]
  · intro hd
    simp [DisconnectDevice, hd]
  · intro hd
    simp [DisconnectDevice, hd]

/-- Witness for C8 at concrete environments and pools. -/
theorem pool_failure_atomicity_witness :
    ConnectDevice envRefuse [] 3 = (false, [], 1) ∧
    DisconnectDevice envRefuse [3] 3 = (false, [3]) ∧
    DisconnectDevice envUp [3] 3 = (true, eraseKey 3 [3]) :=
  ⟨(pool_failure_atomicity envRefuse [] 3).1 rfl (by decide),
   (pool_failure_atomicity envRefuse [3] 3).2.1 rfl,
   (pool_failure_atomicity envUp [3] 3).2.2 rfl⟩

/-- Claim C10: isConnected never modifies the local connection map; in
particular a locally present entry whose device the external layer reports
disconnected yields false while the stale entry remains in the map. -/
theorem isConnected_no_mutation (env : BtEnv) (pool : List Nat) (a : Nat) :
    (IsConnected env pool a).2.1 = pool ∧
    (a ∈ pool → env.getDeviceInfo a = some false →
       (IsConnected env pool a).1 = false ∧ a ∈ (IsConnected env pool a).2.1) := by
  constructor
  · unfold IsConnected
    split
    · cases env.getDeviceInfo a <;> simp
    · simp
  · intro h hf
    simp [IsConnected, h, hf]

/-- Witness for C10: a stale entry survives an isConnected call that reports
the device externally disconnected. -/
theorem isConnected_no_mutation_witness :
    (IsConnected envDropped [7] 7).2.1 = [7] ∧
    (IsConnected envDropped [7] 7).1 = false ∧
    7 ∈ (IsConnected envDropped [7] 7).2.1 :=
  ⟨(isConnected_no_mutation envDropped [7] 7).1,
   ((isConnected_no_mutation envDropped [7] 7).2 (by simp) rfl).1,
   ((isConnected_no_mutation envDropped [7] 7).2 (by simp) rfl).2⟩

/-! ### Scanner start theorems -/

/-- Claim C9: start is a no-op success when already scanning; when idle, the
radio pre-flight check runs before any thread creation, a failed check aborts
the start with no thread spawned, and a thread is spawned only after the
check passed. -/
theorem start_preflight (env : RadioEnv) (scanning : Bool) :
    (scanning = true →
       StartScanning env scanning =
         { ret := true, threadSpawned := false, scanningAfter := true }) ∧
    (scanning = false → env.radioValid = false →
       StartScanning env scanning =
         { ret := false, threadSpawned := false, scanningAfter := false }) ∧
    ((StartScanning env scanning).threadSpawned = true → env.radioValid = true) := by
  rcases env with ⟨rv, ct⟩
  cases scanning <;> cases rv <;> cases ct <;> simp [StartScanning]

/-- Witness for C9: a failed radio check aborts the start without a thread,
and a start while scanning is a no-op success. -/
theorem start_preflight_witness :
    StartScanning { radioValid := false, createThreadOk := true } false =
      { ret := false, threadSpawned := false, scanningAfter := false } ∧
    StartScanning { radioValid := false, createThreadOk := true } true =
      { ret := true, threadSpawned := false, scanningAfter := true } :=
  ⟨(start_preflight { radioValid := false, createThreadOk := true } false).2.1 rfl rfl,
   (start_preflight { radioValid := false, createThreadOk := true } true).1 rfl⟩

/-! ### Audio fan-out theorems -/

/-- Claim C6: a captured packet is fed to every currently registered sink and
to no other; every registered ready sink receives exactly the packet's frame
count once; a per-sink failure (null render client or full buffer) leaves
that sink unchanged without stopping delivery to the others; and after a sink
is unregistered no entry for it remains, so later packets cannot reach it. -/
theorem audio_fanout_delivery (m : AudioManager) (frames : Nat) :
    ((OnAudioCaptured frames m).renderers.map Prod.fst = m.renderers.map Prod.fst) ∧
    (∀ a r, (a, r) ∈ m.renderers → r.renderClient = true → r.bufferAvail = true →
       (a, { r with fedFrames := r.fedFrames ++ [frames] }) ∈ (OnAudioCaptured frames m).renderers) ∧
    (∀ a r, (a, r) ∈ m.renderers → (r.renderClient = false ∨ r.bufferAvail = false) →
       (a, r) ∈ (OnAudioCaptured frames m).renderers) ∧
    (∀ mgr : AudioManager, ∀ a r, (a, r) ∈ (RemoveOutputDevice mgr a).renderers → False) := by
  refine ⟨?_, ?_, ?_, ?_⟩
  · simp [OnAudioCaptured, List.map_map, Function.comp]
  · intro a r hm h1 h2
    have hmap := List.mem_map_of_mem (fun p : Nat × WASAPIRenderer => (p.1, FeedData frames p.2)) hm
    simpa [OnAudioCaptured, FeedData, h1, h2] using hmap
  · intro a r hm hfail
    have hmap := List.mem_map_of_mem (fun p : Nat × WASAPIRenderer => (p.1, FeedData frames p.2)) hm
    rcases hfail with h1 | h2
    · simpa [OnAudioCaptured, FeedData, h1] using hmap
    · cases hrc : r.renderClient
      · simpa [OnAudioCaptured, FeedData, hrc] using hmap
      · simpa [OnAudioCaptured, FeedData, hrc, h2] using hmap
  · intro mgr a r hm
    simp [RemoveOutputDevice, List.mem_filter] at hm

/-- Witness for C6: with two ready sinks and a full one, one packet of 480
frames reaches both ready sinks in full, the full sink is unchanged, and an
unregistered sink has no registry entry. -/
theorem audio_fanout_delivery_witness :
    (1, { okSink endpointA with fedFrames := [480] }) ∈ (OnAudioCaptured 480 mgrThree).renderers ∧
    (2, { okSink endpointB with fedFrames := [480] }) ∈ (OnAudioCaptured 480 mgrThree).renderers ∧
    (3, fullSink endpointC) ∈ (OnAudioCaptured 480 mgrThree).renderers ∧
    ((3, fullSink endpointC) ∈ (RemoveOutputDevice mgrThree 3).renderers → False) := by
  refine ⟨?_, ?_, ?_, ?_⟩
  · have := (audio_fanout_delivery mgrThree 480).2.1 1 (okSink endpointA) (by simp [mgrThree]) rfl rfl
    simpa [okSink] using this
  · have := (audio_fanout_delivery mgrThree 480).2.1 2 (okSink endpointB) (by simp [mgrThree]) rfl rfl
    simpa [okSink] using this
  · exact (audio_fanout_delivery mgrThree 480).2.2.1 3 (fullSink endpointC)
      (by simp [mgrThree]) (Or.inr rfl)
  · exact fun hm => (audio_fanout_delivery mgrThree 480).2.2.2 mgrThree 3 (fullSink endpointC) hm

/-- Claim C7 (code defect): registerSink inserts a renderer that was
constructed but never initialized -- render_client_ stays null, so the entry
is not ready to accept frames and FeedData drops every packet; the failed
resolution path does create no entry. -/
theorem sink_registry_uninitialized_bug :
    (AddOutputDevice findEndpointId { renderers := [] } 42).renderers =
      [(42, WASAPIRenderer.construct (findEndpointId 42))] ∧
    (WASAPIRenderer.construct (findEndpointId 42)).renderClient = false ∧
    FeedData 480 (WASAPIRenderer.construct (findEndpointId 42)) =
      WASAPIRenderer.construct (findEndpointId 42) ∧
    OnAudioCaptured 480 (AddOutputDevice findEndpointId { renderers := [] } 42) =
      AddOutputDevice findEndpointId { renderers := [] } 42 ∧
    AddOutputDevice (fun _ => "") { renderers := [] } 42 = { renderers := [] } := by
  decide

/-! ### Backoff theorems -/

/-- Bounds of one backoff update: the result stays at or above the 1000 ms
floor and at most ten percent above the doubled-and-clamped value. -/
theorem backoffUpdate_le (rand cur : Nat) (h : 1000 ≤ cur) :
    1000 ≤ backoffUpdate rand cur ∧
    backoffUpdate rand cur ≤ min (cur * 2) 10000 + min (cur * 2) 10000 / 10 := by
  have h5 : 0 < min (cur * 2) 10000 / 5 := by omega
  have hmod := Nat.mod_lt rand h5
  simp only [backoffUpdate]
  omega

/-- The pair (consecutive_errors, current_backoff_ms) keeps its backoff
component between 1000 and 11000 across any sequence of cycles, from any
state within those bounds. -/
theorem scanCycleBackoff_invariant (outcomes : List ScanCycleOutcome) (st : Nat × Nat)
    (h1 : 1000 ≤ st.2) (h2 : st.2 ≤ 11000) :
    1000 ≤ (outcomes.foldl (fun s o => scanCycleBackoff o s) st).2 ∧
    (outcomes.foldl (fun s o => scanCycleBackoff o s) st).2 ≤ 11000 := by
  induction outcomes generalizing st with
  | nil => exact ⟨h1, h2⟩
  | cons o rest ih =>
      refine ih (scanCycleBackoff o st) ?_ ?_ <;>
      · cases o with
        | devicesFound devs => simp [scanCycleBackoff]
        | noMoreItems => simpa [scanCycleBackoff] using by omega
        | enumError rand =>
            simp only [scanCycleBackoff]
            split
            · have hb := backoffUpdate_le rand st.2 h1
              simp only []
              omega
            · simpa using by omega

/-- Claim C4 (amended): over every run and every sequence of jitter draws the
scan-loop sleep interval stays at or above the configured 1000 ms minimum and
at or below 11000 ms (the 10000 ms ceiling plus the up-to-ten-percent upward
jitter applied after clamping); each single backoff update is bounded by the
doubled-and-clamped previous interval plus ten percent of it. -/
theorem backoff_bounded (outcomes : List ScanCycleOutcome) :
    (1000 ≤ (runScanBackoff outcomes).2 ∧ (runScanBackoff outcomes).2 ≤ 11000) ∧
    ∀ rand cur, 1000 ≤ cur →
      1000 ≤ backoffUpdate rand cur ∧
      backoffUpdate rand cur ≤ min (cur * 2) 10000 + min (cur * 2) 10000 / 10 := by
  constructor
  · exact scanCycleBackoff_invariant outcomes (0, 1000) (by simp) (by simp)
  · exact fun rand cur h => backoffUpdate_le rand cur h

/-- Witness for C4 at a concrete run and a concrete backoff update. -/
theorem backoff_bounded_witness :
    (1000 ≤ (runScanBackoff [ScanCycleOutcome.enumError 0, ScanCycleOutcome.enumError 0,
        ScanCycleOutcome.enumError 0]).2 ∧
      (runScanBackoff [ScanCycleOutcome.enumError 0, ScanCycleOutcome.enumError 0,
        ScanCycleOutcome.enumError 0]).2 ≤ 11000) ∧
    (1000 ≤ backoffUpdate 7 1000 ∧
      backoffUpdate 7 1000 ≤ min (1000 * 2) 10000 + min (1000 * 2) 10000 / 10) :=
  ⟨(backoff_bounded [ScanCycleOutcome.enumError 0, ScanCycleOutcome.enumError 0,
      ScanCycleOutcome.enumError 0]).1,
   (backoff_bounded []).2 7 1000 (by decide)⟩

/-- Counterexample to C4 as stated: after five consecutive enumeration
failures with maximal jitter draws the sleep interval is 10640 ms, strictly
above the 10000 ms ceiling (and above min(ceiling, 1000 * 2 ^ 3) = 8000). -/
theorem backoff_exceeds_ceiling_cex :
    (runScanBackoff [ScanCycleOutcome.enumError 0, ScanCycleOutcome.enumError 0,
       ScanCycleOutcome.enumError 399, ScanCycleOutcome.enumError 878,
       ScanCycleOutcome.enumError 1933]).2 = 10640 ∧
    10000 < (runScanBackoff [ScanCycleOutcome.enumError 0, ScanCycleOutcome.enumError 0,
       ScanCycleOutcome.enumError 399, ScanCycleOutcome.enumError 878,
       ScanCycleOutcome.enumError 1933]).2 := by
  decide

/-- Claim C5 (amended): a cycle whose enumeration finds devices resets the
consecutive-failure counter and the backoff interval to baseline; a cycle
with an empty no-devices result is not treated as an error but leaves both
the counter and the interval exactly as they were (no reset). -/
theorem cycle_reset_on_found (st : Nat × Nat) (devs : List BluetoothDevice) :
    scanCycleBackoff (ScanCycleOutcome.devicesFound devs) st = (0, 1000) ∧
    scanCycleBackoff ScanCycleOutcome.noMoreItems st = st :=
  ⟨rfl, rfl⟩

/-- Counterexample to C5 as stated: after three genuine failures an empty
no-devices cycle leaves the state at (3, 2000) instead of resetting it to the
baseline (0, 1000). -/
theorem empty_cycle_no_reset_cex :
    runScanBackoff [ScanCycleOutcome.enumError 0, ScanCycleOutcome.enumError 0,
      ScanCycleOutcome.enumError 200, ScanCycleOutcome.noMoreItems] = (3, 2000) ∧
    runScanBackoff [ScanCycleOutcome.enumError 0, ScanCycleOutcome.enumError 0,
      ScanCycleOutcome.enumError 200, ScanCycleOutcome.noMoreItems] ≠ (0, 1000) := by
  decide

/-! ### Scanner cache theorems -/

/-- The in-place update never changes which addresses the cache holds, nor
their multiplicities. -/
theorem countAddr_updateEntry (dev : BluetoothDevice) (l : List BluetoothDevice) (a : Nat) :
    countAddr a (updateEntry dev l) = countAddr a l := by
  induction l with
  | nil => rfl
  | cons e rest ih =>
      by_cases h : (e.address == dev.address) = true
      · simp [updateEntry, h, countAddr, List.countP_cons]
      · simp only [updateEntry, h, if_neg, Bool.false_eq_true, ite_false]
        simp only [countAddr, List.countP_cons] at *
        omega

/-- The in-place update never changes address presence. -/
theorem containsAddr_updateEntry (dev : BluetoothDevice) (l : List BluetoothDevice) (a : Nat) :
    containsAddr (updateEntry dev l) a = containsAddr l a := by
  induction l with
  | nil => rfl
  | cons e rest ih =>
      by_cases h : (e.address == dev.address) = true
      · simp [updateEntry, h, containsAddr]
      · simp only [updateEntry, h, Bool.false_eq_true, ite_false]
        simp only [containsAddr, List.any_cons] at *
        rw [ih]

/-- Multiplicity of an address in the cache after a run of sightings: an
address already cached keeps its multiplicity; a fresh address gains exactly
one entry on its first sighting and none afterwards. -/
theorem countAddr_devices_recordDevices (l : List BluetoothDevice) (st : ScanCache) (a : Nat) :
    countAddr a (recordDevices st l).devices =
      countAddr a st.devices +
        (if containsAddr st.devices a then 0 else if containsAddr l a then 1 else 0) := by
  induction l generalizing st with
  | nil => simp [recordDevices, containsAddr]
  | cons d rest ih =>
      have hstep : recordDevices st (d :: rest) = recordDevices (recordDevice st d) rest := rfl
      rw [hstep, ih]
      by_cases hd : containsAddr st.devices d.address = true
      · have hrec : recordDevice st d = { st with devices := updateEntry d st.devices } := by
          simp [recordDevice, hd]
        rw [hrec]
        simp only [countAddr_updateEntry, containsAddr_updateEntry]
        by_cases hp : (d.address == a) = true
        · have ha : d.address = a := by simpa using hp
          have hc : containsAddr st.devices a = true := ha ▸ hd
          simp [hc]
        · simp [containsAddr, List.any_cons, hp]
      · have hrec : recordDevice st d =
            { devices := st.devices ++ [d], events := st.events ++ [d] } := by
          simp [recordDevice, hd]
        rw [hrec]
        simp only [countAddr, List.countP_append, containsAddr, List.any_append,
          List.any_cons, List.any_nil, List.countP_cons, List.countP_nil]
        by_cases hp : (d.address == a) = true
        · have ha : d.address = a := by simpa using hp
          have hq : st.devices.any (fun x => x.address == a) = false := by
            subst ha
            simpa [containsAddr] using hd
          simp [hp, hq]
        · simp only [hp, Bool.false_eq_true, ite_false, Bool.or_false, Bool.false_or]
          by_cases hq : st.devices.any (fun x => x.address == a) = true <;>
            simp [hq]

/-- Number of observer invocations for an address after a run of sightings:
none when the address is already cached, exactly one when a fresh address
appears in the run, none otherwise. -/
theorem countAddr_events_recordDevices (l : List BluetoothDevice) (st : ScanCache) (a : Nat) :
    countAddr a (recordDevices st l).events =
      countAddr a st.events +
        (if containsAddr st.devices a then 0 else if containsAddr l a then 1 else 0) := by
  induction l generalizing st with
  | nil => simp [recordDevices, containsAddr]
  | cons d rest ih =>
      have hstep : recordDevices st (d :: rest) = recordDevices (recordDevice st d) rest := rfl
      rw [hstep, ih]
      by_cases hd : containsAddr st.devices d.address = true
      · have hrec : recordDevice st d = { st with devices := updateEntry d st.devices } := by
          simp [recordDevice, hd]
        rw [hrec]
        simp only [containsAddr_updateEntry]
        by_cases hp : (d.address == a) = true
        · have ha : d.address = a := by simpa using hp
          have hc : containsAddr st.devices a = true := ha ▸ hd
          simp [hc]
        · simp [containsAddr, List.any_cons, hp]
      · have hrec : recordDevice st d =
            { devices := st.devices ++ [d], events := st.events ++ [d] } := by
          simp [recordDevice, hd]
        rw [hrec]
        simp only [countAddr, List.countP_append, containsAddr, List.any_append,
          List.any_cons, List.any_nil, List.countP_cons, List.countP_nil]
        by_cases hp : (d.address == a) = true
        · have ha : d.address = a := by simpa using hp
          have hq : st.devices.any (fun x => x.address == a) = false := by
            subst ha
            simpa [containsAddr] using hd
          simp [hp, hq]
        · simp only [hp, Bool.false_eq_true, ite_false, Bool.or_false, Bool.false_or]
          by_cases hq : st.devices.any (fun x => x.address == a) = true <;>
            simp [hq]


/-- Updating a cached address rewrites exactly the mutable fields of its
entry: the looked-up entry carries the sighting's name, connected and
authenticated values. -/
theorem findAddr_updateEntry_self (dev : BluetoothDevice) (l : List BluetoothDevice)
    (h : containsAddr l dev.address = true) :
    ∃ e, findAddr (updateEntry dev l) dev.address = some e ∧
      e.name = dev.name ∧ e.connected = dev.connected ∧ e.authenticated = dev.authenticated := by
  induction l with
  | nil => simp [containsAddr] at h
  | cons x rest ih =>
      by_cases hx : (x.address == dev.address) = true
      · refine ⟨{ x with name := dev.name, connected := dev.connected, authenticated := dev.authenticated }, ?_, rfl, rfl, rfl⟩
        simp [updateEntry, findAddr, List.find?_cons, hx]
      · have hrest : containsAddr rest dev.address = true := by
          simp only [containsAddr, List.any_cons, hx, Bool.false_or] at h ⊢
          exact h
        obtain ⟨e, he, h1, h2, h3⟩ := ih hrest
        refine ⟨e, ?_, h1, h2, h3⟩
        simp only [updateEntry, hx, Bool.false_eq_true, ite_false, findAddr, List.find?_cons, hx]
        exact he

/-- Updating one address leaves lookups of every other address unchanged. -/
theorem findAddr_updateEntry_other (dev : BluetoothDevice) (l : List BluetoothDevice)
    (a : Nat) (h : (dev.address == a) = false) :
    findAddr (updateEntry dev l) a = findAddr l a := by
  induction l with
  | nil => rfl
  | cons x rest ih =>
      by_cases hx : (x.address == dev.address) = true
      · have hxa : (x.address == a) = false := by
          have h1 : x.address = dev.address := by simpa using hx
          simpa [h1] using h
        simp [updateEntry, hx, findAddr, List.find?_cons, hxa]
      · simp only [updateEntry, hx, Bool.false_eq_true, ite_false, findAddr, List.find?_cons]
        by_cases hxa : (x.address == a) = true
        · simp [hxa]
        · simp only [hxa]
          exact ih

/-- An address absent from a cache has no entry to find. -/
theorem findAddr_eq_none_of_not_contains (l : List BluetoothDevice) (a : Nat)
    (h : containsAddr l a = false) : findAddr l a = none := by
  rw [findAddr, List.find?_eq_none]
  intro x hx
  simp only [containsAddr, List.any_eq_false] at h
  simpa using h x hx

/-- Recording one sighting installs the sighting's mutable fields at its
address, whether the address was cached (in-place update) or fresh
(insertion at the back). -/
theorem findAddr_recordDevice_self (st : ScanCache) (y : BluetoothDevice) :
    ∃ e, findAddr (recordDevice st y).devices y.address = some e ∧
      e.name = y.name ∧ e.connected = y.connected ∧ e.authenticated = y.authenticated := by
  by_cases hc : containsAddr st.devices y.address = true
  · have hstep : recordDevice st y = { st with devices := updateEntry y st.devices } := by
      simp [recordDevice, hc]
    rw [hstep]
    exact findAddr_updateEntry_self y st.devices hc
  · have hstep : recordDevice st y =
        { devices := st.devices ++ [y], events := st.events ++ [y] } := by
      simp [recordDevice, hc]
    rw [hstep]
    refine ⟨y, ?_, rfl, rfl, rfl⟩
    have hnone : findAddr st.devices y.address = none :=
      findAddr_eq_none_of_not_contains _ _ (by simpa using hc)
    simp only [findAddr, List.find?_append] at hnone ⊢
    rw [hnone]
    simp

/-- Recording one sighting of a different address leaves the lookup of an
address unchanged. -/
theorem findAddr_recordDevice_other (st : ScanCache) (y : BluetoothDevice) (a : Nat)
    (h : (y.address == a) = false) :
    findAddr (recordDevice st y).devices a = findAddr st.devices a := by
  by_cases hc : containsAddr st.devices y.address = true
  · have hstep : recordDevice st y = { st with devices := updateEntry y st.devices } := by
      simp [recordDevice, hc]
    rw [hstep]
    exact findAddr_updateEntry_other y st.devices a h
  · have hstep : recordDevice st y =
        { devices := st.devices ++ [y], events := st.events ++ [y] } := by
      simp [recordDevice, hc]
    rw [hstep]
    simp only [findAddr, List.find?_append, List.find?_singleton, h]
    simp

/-- A sighting list with no occurrence of an address has no recorded cache
presence to begin with. -/
theorem containsAddr_false_of_lastSighting_none (l : List BluetoothDevice) (a : Nat)
    (h : lastSighting l a = none) : containsAddr l a = false := by
  rw [lastSighting, List.find?_eq_none] at h
  simp only [containsAddr, List.any_eq_false]
  intro x hx
  simpa using h x (by simpa using hx)

/-- A run of sightings that never mentions an address leaves that address's
lookup unchanged. -/
theorem findAddr_recordDevices_of_not_contains (l : List BluetoothDevice)
    (st : ScanCache) (a : Nat) (h : containsAddr l a = false) :
    findAddr (recordDevices st l).devices a = findAddr st.devices a := by
  induction l generalizing st with
  | nil => rfl
  | cons y rest ih =>
      have hy : (y.address == a) = false := by
        simp only [containsAddr, List.any_cons, Bool.or_eq_false_iff] at h
        exact h.1
      have hrest : containsAddr rest a = false := by
        simp only [containsAddr, List.any_cons, Bool.or_eq_false_iff] at h
        exact h.2
      have hstep : recordDevices st (y :: rest) = recordDevices (recordDevice st y) rest := rfl
      rw [hstep, ih (recordDevice st y) hrest, findAddr_recordDevice_other st y a hy]

/-- Shape of the most recent sighting over a cons: a sighting in the tail
wins, otherwise the head matches or there is none. -/
theorem lastSighting_cons (y : BluetoothDevice) (rest : List BluetoothDevice) (a : Nat) :
    lastSighting (y :: rest) a =
      (lastSighting rest a).or (if (y.address == a) = true then some y else none) := by
  simp only [lastSighting, List.reverse_cons, List.find?_append, List.find?_singleton]

/-- A sighting list with no occurrence of an address has no most recent
sighting of it. -/
theorem lastSighting_eq_none (l : List BluetoothDevice) (a : Nat)
    (h : containsAddr l a = false) : lastSighting l a = none := by
  rw [lastSighting, List.find?_eq_none]
  intro x hx
  simp only [containsAddr, List.any_eq_false] at h
  exact by simpa using h x (by simpa using hx)

/-- After a run of sightings, the cache entry of an address sighted at least
once carries the name, connected and authenticated values of its most recent
sighting, from any starting cache state. -/
theorem findAddr_lastSighting (l : List BluetoothDevice) (st : ScanCache) (a : Nat)
    (d : BluetoothDevice) (h : lastSighting l a = some d) :
    ∃ e, findAddr (recordDevices st l).devices a = some e ∧
      e.name = d.name ∧ e.connected = d.connected ∧ e.authenticated = d.authenticated := by
  induction l generalizing st d with
  | nil => simp [lastSighting] at h
  | cons y rest ih =>
      have hstep : recordDevices st (y :: rest) = recordDevices (recordDevice st y) rest := rfl
      rw [hstep]
      rw [lastSighting_cons] at h
      cases hrest : lastSighting rest a with
      | some d' =>
          rw [hrest] at h
          simp only [Option.or_some] at h
          exact ih (recordDevice st y) d (hrest.trans h)
      | none =>
          rw [hrest] at h
          simp only [Option.none_or] at h
          by_cases hy : (y.address == a) = true
          · rw [if_pos hy] at h
            have hd : y = d := Option.some.inj h
            subst hd
            have hnc : containsAddr rest a = false :=
              containsAddr_false_of_lastSighting_none rest a hrest
            have ha : y.address = a := by simpa using hy
            obtain ⟨e, he, h1, h2, h3⟩ := findAddr_recordDevice_self st y
            refine ⟨e, ?_, h1, h2, h3⟩
            rw [findAddr_recordDevices_of_not_contains rest (recordDevice st y) a hnc]
            rw [← ha]
            exact he
          · rw [if_neg hy] at h
            cases h

/-- Folding cycle by cycle is the same as folding the concatenated sighting
sequence. -/
theorem scanCyclesRun_eq_flatten (cycles : List (List BluetoothDevice)) :
    scanCyclesRun cycles = recordDevices { devices := [], events := [] } cycles.flatten := by
  suffices h : ∀ st, cycles.foldl recordDevices st = recordDevices st cycles.flatten from h _
  induction cycles with
  | nil => intro st; rfl
  | cons c cs ih =>
      intro st
      rw [List.foldl_cons, ih, List.flatten_cons]
      simp [recordDevices, List.foldl_append]

/-- Claim C1: over every sequence of scan cycles, each sighted address yields
exactly one cache entry and exactly one device-found observer invocation (on
its first sighting), an unsighted address yields neither, and the single
entry of a sighted address carries the name, connected and authenticated
values of its most recent sighting. -/
theorem scanner_cache_unique (cycles : List (List BluetoothDevice)) (a : Nat) :
    countAddr a (scanCyclesRun cycles).devices =
      (if containsAddr cycles.flatten a then 1 else 0) ∧
    countAddr a (scanCyclesRun cycles).events =
      (if containsAddr cycles.flatten a then 1 else 0) ∧
    ∀ d, lastSighting cycles.flatten a = some d →
      ∃ e, findAddr (scanCyclesRun cycles).devices a = some e ∧
        e.name = d.name ∧ e.connected = d.connected ∧ e.authenticated = d.authenticated := by
  rw [scanCyclesRun_eq_flatten]
  refine ⟨?_, ?_, ?_⟩
  · rw [countAddr_devices_recordDevices]
    simp [countAddr, containsAddr]
  · rw [countAddr_events_recordDevices]
    simp [countAddr, containsAddr]
  · intro d hd
    exact findAddr_lastSighting cycles.flatten { devices := [], events := [] } a d hd

/-- Witness for C1 on the spec's scenario: the headset sighted twice (second
time paired) and the speaker once give one entry and one event each, and the
headset's entry shows the paired values of the second sighting. -/
theorem scanner_cache_unique_witness :
    countAddr 161 (scanCyclesRun cyclesW).devices = 1 ∧
    countAddr 161 (scanCyclesRun cyclesW).events = 1 ∧
    countAddr 178 (scanCyclesRun cyclesW).events = 1 ∧
    ∃ e, findAddr (scanCyclesRun cyclesW).devices 161 = some e ∧
      e.name = devA1Paired.name ∧ e.connected = devA1Paired.connected ∧
      e.authenticated = devA1Paired.authenticated := by
  refine ⟨?_, ?_, ?_, (scanner_cache_unique cyclesW 161).2.2 devA1Paired (by decide)⟩
  · rw [(scanner_cache_unique cyclesW 161).1]
    decide
  · rw [(scanner_cache_unique cyclesW 161).2.1]
    decide
  · rw [(scanner_cache_unique cyclesW 178).2.1]
    decide

end RedTooth
